import Mathlib

/-!
Verification development for the Fireside POS repository
(src/app_streamlit.py and src/webhook.py).

Monetary amounts are modelled as rationals (the source uses Python floats;
every concrete value appearing in this development is exactly representable
in binary floating point, so the rational model agrees with the source at
those points).  SQLite tables are modelled as lists of records; a database
connection is a pair of database states (durable, pending): cursor writes
mutate only the pending state, con.commit() copies pending onto durable, and
an exception abandons pending, leaving the durable state as it was at the
last commit.
-/

namespace Fireside

/-- Entry of an item's sizes list: a dict with name and price_delta
(app_streamlit.py, menu schema). -/
structure SizeSpec where
  name : String
  price_delta : ℚ
deriving DecidableEq

/-- Modifier (topping) dict with name and price_delta, as stored in a cart
line and in available_toppings. -/
structure Modifier where
  name : String
  price_delta : ℚ
deriving DecidableEq

/-- Menu item as read from menu.json (fields used by the pricing code). -/
structure MenuItem where
  id : String
  name : String
  base_price : ℚ
  sizes : List SizeSpec
  available_toppings : List Modifier
deriving DecidableEq

/-- Menu category: name plus items (menu.json schema). -/
structure Category where
  name : String
  items : List MenuItem
deriving DecidableEq

/-- Whole menu: list of categories (menu.json schema). -/
structure Menu where
  categories : List Category
deriving DecidableEq

/-- Model of find_item (app_streamlit.py lines 259-264): linear scan over
categories, then over items, returning the first item whose id matches. -/
def find_item (menu : Menu) (item_id : String) : Option MenuItem :=
  menu.categories.findSome? (fun cat => cat.items.find? (fun it => it.id = item_id))

/-- Size-delta computation inside calc_line_total (app_streamlit.py lines
272-277): 0 unless size_name is truthy (non-None and non-empty) and the item
has a non-empty sizes list containing a size of that name, in which case the
first matching size's price_delta is used. -/
def sizeDeltaFor (it : MenuItem) (size_name : Option String) : ℚ :=
  match size_name with
  | none => 0
  | some sn =>
    if sn = "" then 0
    else if it.sizes = [] then 0
    else
      match it.sizes.find? (fun s => s.name = sn) with
      | some s => s.price_delta
      | none => 0

/-- Model of calc_line_total (app_streamlit.py lines 267-279): 0.0 when the
item id is unknown, otherwise (base + size_delta + sum of modifier deltas)
multiplied by max(1, qty). -/
def calc_line_total (menu : Menu) (item_id : String) (qty : ℤ)
    (size_name : Option String) (modifiers : List Modifier) : ℚ :=
  match find_item menu item_id with
  | none => 0
  | some it =>
    (it.base_price + sizeDeltaFor it size_name
       + (modifiers.map Modifier.price_delta).sum) * ((max 1 qty : ℤ) : ℚ)

/-- Rounding of a rational to the nearest integer with ties going to the even
integer.  This models Python's built-in round applied to a float whose value
is exactly the given rational (Python's round is documented to round half to
even; on floats the tie case arises exactly at binary-representable
half-integers, where this function and the source agree). -/
def roundHalfEvenInt (q : ℚ) : ℤ :=
  let f := Rat.floor q
  let r := q - f
  if r < 1/2 then f
  else if 1/2 < r then f + 1
  else if f % 2 = 0 then f else f + 1

/-- Model of Python round(x, 2): round x * 100 half-to-even, divide by 100. -/
def pyRound2 (q : ℚ) : ℚ := (roundHalfEvenInt (q * 100) : ℚ) / 100

/-- Totals dict returned by calc_order_totals. -/
structure Totals where
  subtotal : ℚ
  tax : ℚ
  discount : ℚ
  delivery_fee : ℚ
  tip : ℚ
  total : ℚ
deriving DecidableEq

/-- Model of calc_order_totals (app_streamlit.py lines 282-293).  The Python
source guards discount, tax_rate, delivery_fee and tip with an or-0 default
against None; the model takes the rationals directly. -/
def calc_order_totals (subtotal tax_rate discount delivery_fee tip : ℚ) : Totals :=
  let sub_after_disc := max 0 (subtotal - discount)
  let tax := pyRound2 (sub_after_disc * tax_rate)
  let total := pyRound2 (sub_after_disc + tax + delivery_fee + tip)
  { subtotal := pyRound2 subtotal
    tax := tax
    discount := pyRound2 discount
    delivery_fee := pyRound2 delivery_fee
    tip := pyRound2 tip
    total := total }

/-- Row of the customers table (app_streamlit.py lines 188-198). -/
structure Customer where
  id : ℕ
  name : String
  phone : String
  total_spent : ℚ
  orders_count : ℕ
deriving DecidableEq

/-- Row of the orders table (app_streamlit.py lines 200-223), restricted to
the columns the modelled operations read or write. -/
structure Order where
  id : ℕ
  created_at : String
  customer_name : Option String
  customer_phone : Option String
  service_type : String
  table_number : Option String
  status : String
  paid : Bool
  payment_method : String
  notes : String
  src : String
  subtotal : ℚ
  tax : ℚ
  discount : ℚ
  delivery_fee : ℚ
  tip : ℚ
  total : ℚ
  archived : Bool
deriving DecidableEq

/-- Row of the order_items table (app_streamlit.py lines 225-243); modifiers
are kept as a structured list rather than their JSON serialization. -/
structure OrderItemRow where
  order_id : ℕ
  item_id : String
  item_name : String
  base_price : ℚ
  size : Option String
  size_delta : ℚ
  modifiers : List Modifier
  qty : ℤ
  line_total : ℚ
  item_notes : Option String
  voided : Bool
deriving DecidableEq

/-- The SQLite database: three tables plus the AUTOINCREMENT counters for
customers.id and orders.id. -/
structure DB where
  customers : List Customer
  orders : List Order
  items : List OrderItemRow
  nextCustomerId : ℕ
  nextOrderId : ℕ
deriving DecidableEq

/-- A sqlite3 connection: the durable (committed) state and the pending state
seen through the connection's cursor.  cursor.execute of a write statement
changes only pending; con.commit() publishes pending as the new durable
state; an exception before a commit abandons pending. -/
structure Conn where
  durable : DB
  pending : DB
deriving DecidableEq

/-- Effect of con.commit(). -/
def Conn.commit (c : Conn) : Conn := ⟨c.pending, c.pending⟩

/-- Effect of a cursor write statement: mutates only the pending state. -/
def Conn.write (c : Conn) (f : DB → DB) : Conn := ⟨c.durable, f c.pending⟩

/-- One cart line of st.session_state.cart (app_streamlit.py lines 433-443). -/
structure CartLine where
  item_id : String
  item_name : String
  qty : ℤ
  size : Option String
  size_delta : ℚ
  modifiers : List Modifier
  item_notes : Option String
  base_price : ℚ
  line_total : ℚ
deriving DecidableEq

/-- Inputs of the checkout form in place_order_ui (app_streamlit.py lines
545-575) together with the cart being submitted. -/
structure Draft where
  created_at : String
  customer_name : String
  customer_phone : String
  service_type : String
  table_number : Option String
  notes : String
  paid : Bool
  payment_method : String
  tax_rate : ℚ
  discount : ℚ
  delivery_fee : ℚ
  tip : ℚ
  cart : List CartLine
deriving DecidableEq

/-- Model of create_or_get_customer (app_streamlit.py lines 495-505).  With a
falsy phone it returns None without touching the store; with a known phone it
returns the existing row id; otherwise it INSERTs a new customer row and
immediately calls con.commit() (line 504) before returning the fresh id. -/
def create_or_get_customer (c : Conn) (name phone : String) : Option ℕ × Conn :=
  if phone = "" then (none, c)
  else
    match c.pending.customers.find? (fun cu => cu.phone = phone) with
    | some cu => (some cu.id, c)
    | none =>
      let cid := c.pending.nextCustomerId
      let c2 := c.write (fun db =>
        { db with
            customers := db.customers ++ [⟨cid, name, phone, 0, 0⟩]
            nextCustomerId := cid + 1 })
      (some cid, c2.commit)

/-- Subtotal of the cart as computed by cart_summary_ui (app_streamlit.py
lines 371-391): the sum of the stored line totals. -/
def cartSubtotal (cart : List CartLine) : ℚ :=
  (cart.map CartLine.line_total).sum

/-- Totals snapshot computed inside the order form (app_streamlit.py line
570) from the cart subtotal and the form inputs. -/
def draftTotals (d : Draft) : Totals :=
  calc_order_totals (cartSubtotal d.cart) d.tax_rate d.discount d.delivery_fee d.tip

/-- Orders-table row produced by the INSERT INTO orders of place_order_ui
(app_streamlit.py lines 585-600). -/
def mkOrderRow (oid : ℕ) (d : Draft) (t : Totals) : Order :=
  { id := oid
    created_at := d.created_at
    customer_name := if d.customer_name = "" then none else some d.customer_name
    customer_phone := if d.customer_phone = "" then none else some d.customer_phone
    service_type := d.service_type
    table_number := d.table_number
    status := "new"
    paid := d.paid
    payment_method := d.payment_method
    notes := d.notes
    src := "POS"
    subtotal := t.subtotal
    tax := t.tax
    discount := t.discount
    delivery_fee := t.delivery_fee
    tip := t.tip
    total := t.total
    archived := false }

/-- Order_items row produced by the INSERT INTO order_items of place_order_ui
(app_streamlit.py lines 603-619). -/
def mkItemRow (oid : ℕ) (l : CartLine) : OrderItemRow :=
  { order_id := oid
    item_id := l.item_id
    item_name := l.item_name
    base_price := l.base_price
    size := l.size
    size_delta := l.size_delta
    modifiers := l.modifiers
    qty := l.qty
    line_total := l.line_total
    item_notes := l.item_notes
    voided := false }

/-- Point at which an injected write failure raises during place_order_ui's
persistence sequence. -/
inductive FailPoint
  | orderInsert
  | itemInsert (k : ℕ)
  | custAggregate
  | finalCommit
deriving DecidableEq

/-- Loop inserting the order_items rows (app_streamlit.py lines 603-619),
with an optional injected failure before the k-th insert; none signals that
the failure fired. -/
def insertItemRows (oid : ℕ) (fp : Option FailPoint) :
    Conn → ℕ → List CartLine → Option Conn
  | c, _, [] => some c
  | c, k, l :: ls =>
    if fp = some (.itemInsert k) then none
    else
      insertItemRows oid fp
        (c.write (fun db => { db with items := db.items ++ [mkItemRow oid l] }))
        (k + 1) ls

/-- Model of the persistence block of place_order_ui (app_streamlit.py lines
577-624), with an optional injected write failure.  An empty cart aborts
before any store access (line 578).  The sequence is: customer upsert (which
itself commits when it inserts), order INSERT, order_items INSERTs, customer
aggregate UPDATE (only when a customer id was obtained and the phone is
truthy, line 621), then the single con.commit() of line 624.  A failure
raises out of the function; since Conn.write never touches the durable state,
the store then remains at the durable state left by the upsert. -/
def placeOrderRun (db : DB) (d : Draft) (fp : Option FailPoint) : DB :=
  if d.cart = [] then db
  else
    let totals := draftTotals d
    let c0 : Conn := ⟨db, db⟩
    let rc := if d.customer_name = "" then (none, c0)
              else create_or_get_customer c0 d.customer_name d.customer_phone
    let cust_id := rc.1
    let c1 := rc.2
    if fp = some .orderInsert then c1.durable
    else
      let oid := c1.pending.nextOrderId
      let c2 := c1.write (fun dbp =>
        { dbp with
            orders := dbp.orders ++ [mkOrderRow oid d totals]
            nextOrderId := oid + 1 })
      match insertItemRows oid fp c2 0 d.cart with
      | none => c1.durable
      | some c3 =>
        let c4 : Option Conn :=
          match cust_id with
          | none => some c3
          | some cid =>
            if d.customer_phone = "" then some c3
            else if fp = some .custAggregate then none
            else
              some (c3.write (fun dbp =>
                { dbp with
                    customers := dbp.customers.map (fun cu =>
                      if cu.id = cid then
                        { cu with
                            orders_count := cu.orders_count + 1
                            total_spent := cu.total_spent + totals.total }
                      else cu) }))
        match c4 with
        | none => c1.durable
        | some c5 => if fp = some .finalCommit then c5.durable else c5.commit.pending

/-- Durable store state right after the customer-upsert phase of
place_order_ui: unchanged unless a truthy customer name and a truthy, unknown
phone caused create_or_get_customer to insert and commit a new customer. -/
def upsertDurable (db : DB) (d : Draft) : DB :=
  if d.customer_name = "" then db
  else if d.customer_phone = "" then db
  else
    match db.customers.find? (fun cu => cu.phone = d.customer_phone) with
    | some _ => db
    | none =>
      { db with
          customers :=
            db.customers ++ [⟨db.nextCustomerId, d.customer_name, d.customer_phone, 0, 0⟩]
          nextCustomerId := db.nextCustomerId + 1 }

/-- Decides whether an injected failure point is actually reached by the code
path place_order_ui takes for the given draft. -/
def FailPoint.triggers (d : Draft) : FailPoint → Bool
  | .orderInsert => true
  | .itemInsert k => k < d.cart.length
  | .custAggregate => d.customer_name ≠ "" && d.customer_phone ≠ ""
  | .finalCommit => true

/-- UPDATE orders SET status=? WHERE id=? — the kitchen Start/Ready/Complete
buttons (app_streamlit.py lines 713-718) and the manager Mark Completed
button (line 763-764). -/
def setStatus (db : DB) (oid : ℕ) (s : String) : DB :=
  { db with
      orders := db.orders.map (fun o => if o.id = oid then { o with status := s } else o) }

/-- UPDATE orders SET archived=? WHERE id=? — the manager Archive/Unarchive
buttons (app_streamlit.py lines 759-762). -/
def setArchived (db : DB) (oid : ℕ) (b : Bool) : DB :=
  { db with
      orders := db.orders.map (fun o => if o.id = oid then { o with archived := b } else o) }

/-- UPDATE orders SET paid = CASE paid WHEN 1 THEN 0 ELSE 1 END WHERE id=? —
the manager Toggle Paid button (app_streamlit.py lines 757-758). -/
def togglePaid (db : DB) (oid : ℕ) : DB :=
  { db with
      orders := db.orders.map (fun o => if o.id = oid then { o with paid := !o.paid } else o) }

/-- UPDATE orders SET paid=1, payment_method='Card' WHERE id=? — the paid
update executed by the webhook receiver (webhook.py lines 40-43).  The id
bound comes from Python's int() applied to the metadata string, so it is an
integer compared against the table's natural-number ids. -/
def webhookMarkPaid (db : DB) (n : ℤ) : DB :=
  { db with
      orders := db.orders.map (fun o =>
        if (o.id : ℤ) = n then { o with paid := true, payment_method := "Card" } else o) }

/-- Value of a list of digit characters. -/
def digitsVal (cs : List Char) : ℕ :=
  cs.foldl (fun a c => a * 10 + (c.toNat - 48)) 0

/-- Checks that a character list is a non-empty run of decimal digits. -/
def isDigitRun (cs : List Char) : Bool :=
  !cs.isEmpty && cs.all Char.isDigit

/-- Model of Python's int() applied to a string: an optional sign followed by
at least one decimal digit parses to that integer, anything else raises
ValueError (returned here as none).  Surrounding whitespace and digit-group
underscores, which int() would also accept, do not occur in this
development. -/
def pyIntOfString (s : String) : Option ℤ :=
  match s.data with
  | '-' :: cs => if isDigitRun cs then some (-(digitsVal cs : ℤ)) else none
  | '+' :: cs => if isDigitRun cs then some (digitsVal cs : ℤ) else none
  | cs => if isDigitRun cs then some (digitsVal cs : ℤ) else none

/-- Event fields the webhook handler reads from a successfully verified
payload: event["type"] and the optional order_id inside
event["data"]["object"]["metadata"] (webhook.py lines 34-36). -/
structure WebhookEvent where
  type : String
  metadata_order_id : Option String
deriving DecidableEq

/-- Outcome of stripe.Webhook.construct_event on the inbound body: either it
raises (signature mismatch or malformed payload, webhook.py lines 24-31) or
it yields a verified event. -/
inductive InboundPayload
  | unverifiable
  | event (e : WebhookEvent)
deriving DecidableEq

/-- HTTP statuses the webhook endpoint can produce: 200 ok, the explicit 400
rejections, and 500 for a configuration failure or an unhandled exception. -/
inductive HttpStatus
  | s200
  | s400
  | s500
deriving DecidableEq

/-- Model of the stripe_webhook endpoint (webhook.py lines 17-47).  An unset
webhook secret yields HTTP 500 before any verification (lines 21-22).  A
payload that construct_event cannot verify is rejected with 400 (lines
24-31).  On a checkout.session.completed or payment_intent.succeeded event a
truthy metadata order_id is converted with int() — which raises an unhandled
ValueError, surfacing as a 500, when the string is not an integer — and the
paid UPDATE plus commit runs; every other verified event is acknowledged with
200 and no store change. -/
def stripe_webhook (secretSet : Bool) (p : InboundPayload) (db : DB) :
    HttpStatus × DB :=
  if !secretSet then (.s500, db)
  else
    match p with
    | .unverifiable => (.s400, db)
    | .event e =>
      if e.type = "checkout.session.completed" || e.type = "payment_intent.succeeded" then
        match e.metadata_order_id with
        | none => (.s200, db)
        | some s =>
          if s = "" then (.s200, db)
          else
            match pyIntOfString s with
            | none => (.s500, db)
            | some n => (.s200, webhookMarkPaid db n)
      else (.s200, db)

/-- Query parameters of the success_url built by create_checkout_for_order
(app_streamlit.py line 471): only checkout=success and the order id. -/
def success_query_params (oid : ℕ) : List (String × String) :=
  [("checkout", "success"), ("order_id", toString oid)]

/-- Query parameters of the cancel_url built by create_checkout_for_order
(app_streamlit.py line 472): only checkout=canceled and the order id. -/
def cancel_query_params (oid : ℕ) : List (String × String) :=
  [("checkout", "canceled"), ("order_id", toString oid)]

/-- Error outcomes of create_checkout_for_order, named after the spec's error
taxonomy; each corresponds to one st.error-and-return-None branch of the
source. -/
inductive CheckoutErr
  | configError
  | orderNotFound
  | validationError
deriving DecidableEq

/-- The external request create_checkout_for_order hands to
stripe.checkout.Session.create (app_streamlit.py lines 474-487). -/
structure CheckoutRequest where
  amount_cents : ℤ
  metadata_order_id : String
  success_params : List (String × String)
  cancel_params : List (String × String)
deriving DecidableEq

/-- Result of create_checkout_for_order: an error branch taken before any
external call, or the gateway call it performs. -/
inductive CheckoutOutcome
  | error (e : CheckoutErr)
  | gatewayCall (req : CheckoutRequest)
deriving DecidableEq

/-- SELECT ... FROM orders WHERE id=? lookup. -/
def findOrder (db : DB) (oid : ℕ) : Option Order :=
  db.orders.find? (fun o => o.id = oid)

/-- The STRIPE_ENABLED constant of app_streamlit.py line 58. -/
def STRIPE_ENABLED : Bool := true

/-- Model of create_checkout_for_order (app_streamlit.py lines 448-491): it
fails before any external call when Stripe is not configured, when the order
id is unknown, or when int(round(total * 100)) is not positive; otherwise it
performs the gateway call carrying the amount in cents, the order id as
correlation metadata, and the return URLs.  The source's guard for a NULL
total is unreachable here because every modelled write supplies a total
(orders.total also has DEFAULT 0 in the schema).  The function only reads
from the store; the returned state is the input state. -/
def create_checkout_for_order (apiKeySet : Bool) (db : DB) (oid : ℕ) :
    CheckoutOutcome × DB :=
  if !(STRIPE_ENABLED && apiKeySet) then (.error .configError, db)
  else
    match findOrder db oid with
    | none => (.error .orderNotFound, db)
    | some o =>
      let amount_cents := roundHalfEvenInt (o.total * 100)
      if amount_cents ≤ 0 then (.error .validationError, db)
      else
        (.gatewayCall
          { amount_cents := amount_cents
            metadata_order_id := toString oid
            success_params := success_query_params oid
            cancel_params := cancel_query_params oid }, db)

/-- Lookup of a query parameter, modelling the _get helper of init_banner
(app_streamlit.py lines 892-896). -/
def qpGet (qp : List (String × String)) (k : String) : Option String :=
  (qp.find? (fun p => p.1 = k)).map (fun p => p.2)

/-- Python truthiness of an optional query-parameter string. -/
def truthy : Option String → Bool
  | none => false
  | some s => s ≠ ""

/-- Banner init_banner can render. -/
inductive Banner
  | paymentReceived (oid : String)
  | checkoutCanceled (oid : String)
  | noBanner
deriving DecidableEq

/-- Model of init_banner (app_streamlit.py lines 889-900): a success banner
when checkout == "success" with a truthy order_id, a cancellation warning
when checkout == "canceled" with a truthy order_id, else nothing. -/
def init_banner (qp : List (String × String)) : Banner :=
  if qpGet qp "checkout" = some "success" && truthy (qpGet qp "order_id") then
    .paymentReceived ((qpGet qp "order_id").getD "")
  else if qpGet qp "checkout" = some "canceled" && truthy (qpGet qp "order_id") then
    .checkoutCanceled ((qpGet qp "order_id").getD "")
  else .noBanner

/-- Full effect of an inbound return-URL request on the application: main()
(app_streamlit.py line 916) passes the query parameters to init_banner, which
is the only code that inspects them; it renders a banner and performs no
store access, so the store component is the input store. -/
def handle_return_url (db : DB) (qp : List (String × String)) : DB × Banner :=
  (db, init_banner qp)

/-- One user- or gateway-triggered operation of the system, covering order
creation, the kitchen status buttons, the manager quick actions, and both
reconciliation paths. -/
inductive Op
  | placeOrder (d : Draft)
  | kitchenStart (oid : ℕ)
  | kitchenReady (oid : ℕ)
  | kitchenComplete (oid : ℕ)
  | managerTogglePaid (oid : ℕ)
  | managerArchive (oid : ℕ)
  | managerUnarchive (oid : ℕ)
  | managerMarkCompleted (oid : ℕ)
  | webhookPaid (n : ℤ)
  | returnUrl (qp : List (String × String))

/-- Store transition performed by each operation, each taken from the
corresponding UPDATE/INSERT in the source (placeOrder is the successful
place_order_ui run; returnUrl never touches the store). -/
def step (db : DB) : Op → DB
  | .placeOrder d => placeOrderRun db d none
  | .kitchenStart oid => setStatus db oid "in_progress"
  | .kitchenReady oid => setStatus db oid "ready"
  | .kitchenComplete oid => setStatus db oid "completed"
  | .managerTogglePaid oid => togglePaid db oid
  | .managerArchive oid => setArchived db oid true
  | .managerUnarchive oid => setArchived db oid false
  | .managerMarkCompleted oid => setStatus db oid "completed"
  | .webhookPaid n => webhookMarkPaid db n
  | .returnUrl qp => (handle_return_url db qp).1

/-- Concrete menu item used for concrete evaluations: the default menu's
Margherita pizza shape (base 12.00, a size at +3.00). -/
def item0 : MenuItem :=
  { id := "pz_margherita"
    name := "Margherita"
    base_price := 12
    sizes := [⟨"Small", 0⟩, ⟨"Large", 3⟩]
    available_toppings := [⟨"Pepperoni", 3/2⟩, ⟨"Mushrooms", 1⟩] }

/-- Concrete one-category menu containing item0. -/
def menu0 : Menu := ⟨[⟨"Pizzas", [item0]⟩]⟩

/-- Two selected modifiers, +1.50 and +1.00. -/
def mods0 : List Modifier := [⟨"Pepperoni", 3/2⟩, ⟨"Mushrooms", 1⟩]

/-- A fresh, empty database (AUTOINCREMENT counters at 1). -/
def dbEmpty : DB := ⟨[], [], [], 1, 1⟩

/-- Concrete cart line for concrete order placements. -/
def line0 : CartLine :=
  { item_id := "pz_margherita"
    item_name := "Margherita"
    qty := 1
    size := none
    size_delta := 0
    modifiers := []
    item_notes := none
    base_price := 12
    line_total := 12 }

/-- Draft of a walk-in order marked paid in cash at the desk (the Mark as
paid now checkbox with payment Cash), with no customer record. -/
def draftCash : Draft :=
  { created_at := "2026-10-12T12:00:00"
    customer_name := ""
    customer_phone := ""
    service_type := "Takeout"
    table_number := none
    notes := ""
    paid := true
    payment_method := "Cash"
    tax_rate := 0
    discount := 0
    delivery_fee := 0
    tip := 0
    cart := [line0] }

/-- Store state after placing draftCash on the empty database: one order,
id 1, paid already true with payment_method Cash. -/
def dbAfterCash : DB := placeOrderRun dbEmpty draftCash none

/-- Draft carrying a new customer (name Ann, phone 555) for the atomicity
counterexample. -/
def draftAnn : Draft :=
  { created_at := "2026-10-12T12:05:00"
    customer_name := "Ann"
    customer_phone := "555"
    service_type := "Takeout"
    table_number := none
    notes := ""
    paid := false
    payment_method := "Cash"
    tax_rate := 0
    discount := 0
    delivery_fee := 0
    tip := 0
    cart := [line0] }

/-- A pre-existing unpaid order with id 7 (as placed and never paid). -/
def order7 : Order :=
  { id := 7
    created_at := "2026-10-12T12:10:00"
    customer_name := none
    customer_phone := none
    service_type := "Takeout"
    table_number := none
    status := "new"
    paid := false
    payment_method := "Online"
    notes := ""
    src := "POS"
    subtotal := 0
    tax := 0
    discount := 0
    delivery_fee := 0
    tip := 0
    total := 0
    archived := false }

/-- Store holding only the unpaid order 7. -/
def db7 : DB := ⟨[], [order7], [], 1, 8⟩

/-- An order already marked paid by the webhook path (paid, Card). -/
def orderCard : Order :=
  { id := 1
    created_at := "2026-10-12T12:15:00"
    customer_name := none
    customer_phone := none
    service_type := "Takeout"
    table_number := none
    status := "ready"
    paid := true
    payment_method := "Card"
    notes := ""
    src := "POS"
    subtotal := 0
    tax := 0
    discount := 0
    delivery_fee := 0
    tip := 0
    total := 0
    archived := false }

/-- Store holding only the already-webhook-paid order. -/
def dbCard : DB := ⟨[], [orderCard], [], 1, 2⟩

/-- An order whose frozen total is 0.00, for the checkout precondition. -/
def orderZeroTotal : Order :=
  { order7 with id := 9, total := 0 }

/-- Store holding only the zero-total order 9. -/
def db9 : DB := ⟨[], [orderZeroTotal], [], 1, 10⟩

/-- Return-URL query parameters of a success redirect for order 7, with the
session id the claim assumes the handler consumes. -/
def qpSuccess7 : List (String × String) :=
  [("checkout", "success"), ("order_id", "7"), ("session_id", "cs_test_123")]

theorem ratFloor_eq_floor (q : ℚ) : Rat.floor q = ⌊q⌋ := by
  rw [Rat.floor_def', Rat.floor_def]

theorem roundHalfEvenInt_intCast (m : ℤ) : roundHalfEvenInt (m : ℚ) = m := by
  simp only [roundHalfEvenInt, ratFloor_eq_floor]
  norm_num

theorem roundHalfEvenInt_add_half (m : ℤ) :
    roundHalfEvenInt ((m : ℚ) + 1/2) = if m % 2 = 0 then m else m + 1 := by
  simp only [roundHalfEvenInt, ratFloor_eq_floor]
  rw [show (⌊(m : ℚ) + 1/2⌋ : ℤ) = m from by
    rw [Int.floor_eq_iff]; constructor <;> norm_num]
  rw [show ((m : ℚ) + 1/2 - m) = 1/2 by ring]
  norm_num

theorem pyRound2_int_div (m : ℤ) : pyRound2 ((m : ℚ) / 100) = (m : ℚ) / 100 := by
  simp only [pyRound2]
  rw [show ((m : ℚ)/100 * 100) = (m : ℚ) by field_simp]
  rw [roundHalfEvenInt_intCast]

theorem pyRound2_zero : pyRound2 0 = 0 := by
  have h := pyRound2_int_div 0
  simpa using h

/-- C7: for every catalog item, qty, optional size name and modifier list,
the line total is (base_price + size_delta + sum of modifier deltas)
multiplied by max(1, qty); a qty below 1 is clamped to 1 rather than
rejected, and for qty at least 1 the total is linear in qty. -/
theorem calc_line_total_formula_clamp_linear :
    ∀ (menu : Menu) (iid : String) (qty : ℤ) (sn : Option String)
      (mods : List Modifier) (it : MenuItem),
      find_item menu iid = some it →
      calc_line_total menu iid qty sn mods
          = (it.base_price + sizeDeltaFor it sn + (mods.map Modifier.price_delta).sum)
              * ((max 1 qty : ℤ) : ℚ)
        ∧ (qty ≤ 1 → calc_line_total menu iid qty sn mods = calc_line_total menu iid 1 sn mods)
        ∧ (1 ≤ qty → calc_line_total menu iid qty sn mods
              = calc_line_total menu iid 1 sn mods * ((qty : ℤ) : ℚ)) := by
  intro menu iid qty sn mods it h
  have hbase : ∀ q : ℤ, calc_line_total menu iid q sn mods
      = (it.base_price + sizeDeltaFor it sn + (mods.map Modifier.price_delta).sum)
          * ((max 1 q : ℤ) : ℚ) := by
    intro q
    simp only [calc_line_total, h]
  refine ⟨hbase qty, ?_, ?_⟩
  · intro hq
    rw [hbase qty, hbase 1, max_eq_left hq, max_self]
  · intro hq
    rw [hbase qty, hbase 1, max_eq_right hq, max_self]
    push_cast
    ring

/-- Witness for C7 at the spec's own scenario: base 12.00, size +3.00,
modifiers +1.50 and +1.00, qty 2, giving 35.00 and the linearity equation. -/
theorem calc_line_total_formula_witness :
    calc_line_total menu0 "pz_margherita" 2 (some "Large") mods0 = 35
    ∧ calc_line_total menu0 "pz_margherita" 2 (some "Large") mods0
        = calc_line_total menu0 "pz_margherita" 1 (some "Large") mods0 * ((2 : ℤ) : ℚ) := by
  have hform :=
    (calc_line_total_formula_clamp_linear menu0 "pz_margherita" 2 (some "Large") mods0 item0 rfl).1
  have hlin :=
    (calc_line_total_formula_clamp_linear menu0 "pz_margherita" 2 (some "Large") mods0 item0
      rfl).2.2 (by norm_num)
  refine ⟨?_, hlin⟩
  rw [hform]
  have hs : sizeDeltaFor item0 (some "Large") = 3 := rfl
  have hm : mods0.map Modifier.price_delta = [3/2, 1] := rfl
  have hb : item0.base_price = 12 := rfl
  rw [hs, hm, hb]
  norm_num

/-- C8: calc_order_totals clamps the discounted subtotal at 0, computes tax
and total from the clamped value with 2-decimal rounding, returns all zeros
on all-zero inputs, and on a zero subtotal yields total = delivery_fee + tip
for whole-cent fee and tip. -/
theorem calc_order_totals_clamp_round_zero :
    ∀ s r d f t : ℚ,
      (calc_order_totals s r d f t).tax = pyRound2 (max 0 (s - d) * r)
      ∧ (calc_order_totals s r d f t).total
          = pyRound2 (max 0 (s - d) + pyRound2 (max 0 (s - d) * r) + f + t)
      ∧ 0 ≤ max 0 (s - d)
      ∧ calc_order_totals 0 0 0 0 0 = ⟨0, 0, 0, 0, 0, 0⟩
      ∧ ∀ fn tn : ℤ,
          (calc_order_totals 0 r 0 ((fn : ℚ)/100) ((tn : ℚ)/100)).total
            = (fn : ℚ)/100 + (tn : ℚ)/100 := by
  intro s r d f t
  refine ⟨rfl, rfl, le_max_left 0 _, ?_, ?_⟩
  · simp [calc_order_totals, pyRound2_zero]
  · intro fn tn
    have h0 : max (0:ℚ) (0 - 0) = 0 := by norm_num
    simp only [calc_order_totals, h0, zero_mul, pyRound2_zero, zero_add]
    rw [show ((fn : ℚ)/100 + (tn : ℚ)/100) = ((fn + tn : ℤ) : ℚ)/100 by push_cast; ring]
    rw [pyRound2_int_div]

/-- C9 counterexample: at discounted subtotal 0.25 and tax rate 0.5 the
product is exactly 0.125 (a binary-representable half-cent tie, where the
rational model and Python's float round agree); the source rounds it to
0.12 — the even cent — not to 0.13 as half-up rounding would. -/
theorem tax_rounds_half_even_not_half_up_at_eighth :
    (calc_order_totals (1/4) (1/2) 0 0 0).tax = 12/100
    ∧ (calc_order_totals (1/4) (1/2) 0 0 0).tax ≠ 13/100 := by
  have h : (calc_order_totals (1/4) (1/2) 0 0 0).tax = 12/100 := by
    simp only [calc_order_totals, sub_zero]
    rw [max_eq_right (by norm_num : (0:ℚ) ≤ 1/4)]
    simp only [pyRound2]
    rw [show ((1:ℚ)/4 * (1/2) * 100) = ((12 : ℤ) : ℚ) + 1/2 by norm_num]
    rw [roundHalfEvenInt_add_half]
    norm_num
  exact ⟨h, by rw [h]; norm_num⟩

/-- C9 as amended: the tax rounding of calc_order_totals is round half to
even, exhibited across the whole family of binary-representable half-cent
ties (2j+1)/8: the tie goes to the even cent 25j+12 for even j and up to
25j+13 for odd j, never uniformly away from zero. -/
theorem tax_rounding_half_even_at_dyadic_ties :
    ∀ j : ℕ,
      (calc_order_totals ((2 * (j : ℚ) + 1)/8) 1 0 0 0).tax
        = (if j % 2 = 0 then (25 * (j : ℚ) + 12) else (25 * (j : ℚ) + 13)) / 100 := by
  intro j
  simp only [calc_order_totals, sub_zero]
  rw [max_eq_right (by positivity : (0:ℚ) ≤ (2 * (j : ℚ) + 1)/8)]
  rw [mul_one]
  simp only [pyRound2]
  rw [show ((2 * (j : ℚ) + 1)/8 * 100) = ((25 * (j : ℤ) + 12 : ℤ) : ℚ) + 1/2 by
    push_cast; ring]
  rw [roundHalfEvenInt_add_half]
  by_cases hj : j % 2 = 0
  · rw [if_pos (by omega : (25 * (j : ℤ) + 12) % 2 = 0), if_pos hj]
    push_cast
    ring
  · rw [if_neg (by omega : ¬ (25 * (j : ℤ) + 12) % 2 = 0), if_neg hj]
    push_cast
    ring

/-- C10: an item id matching nothing in the catalog makes calc_line_total
return 0 regardless of qty, size and modifiers — silently, with no error. -/
theorem calc_line_total_unknown_item_zero :
    ∀ (menu : Menu) (iid : String) (qty : ℤ) (sn : Option String) (mods : List Modifier),
      find_item menu iid = none → calc_line_total menu iid qty sn mods = 0 := by
  intro menu iid qty sn mods h
  simp [calc_line_total, h]

/-- Witness for C10: an id absent from the concrete menu prices to 0 even
with qty 5, a size and priced modifiers attached. -/
theorem calc_line_total_unknown_item_witness :
    calc_line_total menu0 "sd_garlic_knots" 5 (some "Large") mods0 = 0 :=
  calc_line_total_unknown_item_zero menu0 "sd_garlic_knots" 5 (some "Large") mods0 rfl

@[simp] theorem Conn.write_durable (c : Conn) (f : DB → DB) : (c.write f).durable = c.durable := rfl

@[simp] theorem Conn.write_pending (c : Conn) (f : DB → DB) : (c.write f).pending = f c.pending := rfl

@[simp] theorem Conn.commit_durable (c : Conn) : c.commit.durable = c.pending := rfl

@[simp] theorem Conn.commit_pending (c : Conn) : c.commit.pending = c.pending := rfl

theorem upsertDurable_orders (db : DB) (d : Draft) : (upsertDurable db d).orders = db.orders := by
  unfold upsertDurable
  repeat' split
  all_goals rfl

theorem upsertDurable_items (db : DB) (d : Draft) : (upsertDurable db d).items = db.items := by
  unfold upsertDurable
  repeat' split
  all_goals rfl

theorem upsertDurable_nextOrderId (db : DB) (d : Draft) :
    (upsertDurable db d).nextOrderId = db.nextOrderId := by
  unfold upsertDurable
  repeat' split
  all_goals rfl

theorem upsertDurable_customers_mem (db : DB) (d : Draft) :
    ∀ cu ∈ (upsertDurable db d).customers,
      cu ∈ db.customers ∨ (cu.total_spent = 0 ∧ cu.orders_count = 0) := by
  intro cu hcu
  unfold upsertDurable at hcu
  split at hcu
  · exact Or.inl hcu
  · split at hcu
    · exact Or.inl hcu
    · split at hcu
      · exact Or.inl hcu
      · rcases List.mem_append.1 hcu with h | h
        · exact Or.inl h
        · rw [List.mem_singleton] at h
          subst h
          exact Or.inr ⟨rfl, rfl⟩

theorem upsert_phase (db : DB) (d : Draft) :
    (if d.customer_name = "" then ((none : Option ℕ), (⟨db, db⟩ : Conn))
     else create_or_get_customer ⟨db, db⟩ d.customer_name d.customer_phone).2
      = ⟨upsertDurable db d, upsertDurable db d⟩ := by
  unfold create_or_get_customer upsertDurable
  by_cases h1 : d.customer_name = ""
  · simp [h1]
  · rw [if_neg h1, if_neg h1]
    by_cases h2 : d.customer_phone = ""
    · simp [h2]
    · rw [if_neg h2, if_neg h2]
      cases hf : db.customers.find? (fun cu => cu.phone = d.customer_phone) with
      | some cu => simp [hf]
      | none => simp [hf, Conn.write, Conn.commit]

theorem upsert_phase_id (db : DB) (d : Draft) (h2 : d.customer_phone ≠ "") :
    ∃ cid, (create_or_get_customer ⟨db, db⟩ d.customer_name d.customer_phone).1 = some cid := by
  unfold create_or_get_customer
  rw [if_neg h2]
  split
  · exact ⟨_, rfl⟩
  · exact ⟨_, rfl⟩

theorem insertItemRows_total (oid : ℕ) (fp : Option FailPoint)
    (hfp : ∀ j, fp ≠ some (FailPoint.itemInsert j)) :
    ∀ (ls : List CartLine) (k : ℕ) (c : Conn),
      insertItemRows oid fp c k ls
        = some ⟨c.durable, { c.pending with items := c.pending.items ++ ls.map (mkItemRow oid) }⟩ := by
  intro ls
  induction ls with
  | nil =>
    intro k c
    simp [insertItemRows]
  | cons l ls ih =>
    intro k c
    simp only [insertItemRows]
    rw [if_neg (hfp k)]
    rw [ih (k + 1)]
    simp [List.append_assoc]

theorem insertItemRows_fails (oid : ℕ) :
    ∀ (ls : List CartLine) (k j : ℕ) (c : Conn), k ≤ j → j < k + ls.length →
      insertItemRows oid (some (FailPoint.itemInsert j)) c k ls = none := by
  intro ls
  induction ls with
  | nil =>
    intro k j c h1 h2
    exfalso
    simp at h2
    omega
  | cons l ls ih =>
    intro k j c h1 h2
    simp only [insertItemRows]
    by_cases hk : j = k
    · subst hk
      rw [if_pos rfl]
    · rw [if_neg (by simp [hk])]
      exact ih (k + 1) j _ (by omega) (by simp at h2; omega)

theorem placeOrderRun_fail_eq (db : DB) (d : Draft) (fp : FailPoint)
    (hc : d.cart ≠ []) (ht : fp.triggers d = true) :
    placeOrderRun db d (some fp) = upsertDurable db d := by
  cases fp with
  | orderInsert =>
    simp only [placeOrderRun, if_neg hc, upsert_phase]
    simp
  | itemInsert k =>
    have hk : k < d.cart.length := by
      simpa [FailPoint.triggers] using ht
    have hrows : ∀ (oid : ℕ) (c : Conn),
        insertItemRows oid (some (FailPoint.itemInsert k)) c 0 d.cart = none :=
      fun oid c => insertItemRows_fails oid d.cart 0 k c (Nat.zero_le k) (by omega)
    simp only [placeOrderRun, if_neg hc, upsert_phase]
    simp [hrows]
  | custAggregate =>
    have hnp : d.customer_name ≠ "" ∧ d.customer_phone ≠ "" := by
      simpa [FailPoint.triggers] using ht
    obtain ⟨cid, hcid⟩ := upsert_phase_id db d hnp.2
    have hrows : ∀ (oid : ℕ) (ls : List CartLine) (k : ℕ) (c : Conn),
        insertItemRows oid (some FailPoint.custAggregate) c k ls
          = some ⟨c.durable, { c.pending with items := c.pending.items ++ ls.map (mkItemRow oid) }⟩ :=
      fun oid => insertItemRows_total oid _ (by simp)
    simp only [placeOrderRun, if_neg hc, upsert_phase]
    simp [hrows, hcid, hnp.1, hnp.2]
  | finalCommit =>
    have hrows : ∀ (oid : ℕ) (ls : List CartLine) (k : ℕ) (c : Conn),
        insertItemRows oid (some FailPoint.finalCommit) c k ls
          = some ⟨c.durable, { c.pending with items := c.pending.items ++ ls.map (mkItemRow oid) }⟩ :=
      fun oid => insertItemRows_total oid _ (by simp)
    by_cases hname : d.customer_name = ""
    · simp only [placeOrderRun, if_neg hc, upsert_phase]
      simp [hrows, hname]
    · by_cases hphone : d.customer_phone = ""
      · simp only [placeOrderRun, if_neg hc, upsert_phase]
        simp [hrows, hname, hphone, create_or_get_customer]
      · obtain ⟨cid, hcid⟩ := upsert_phase_id db d hphone
        simp only [placeOrderRun, if_neg hc, upsert_phase]
        simp [hrows, hname, hcid, hphone]

theorem placeOrderRun_none_shapes (db : DB) (d : Draft) (hc : d.cart ≠ []) :
    (placeOrderRun db d none).orders = db.orders ++ [mkOrderRow db.nextOrderId d (draftTotals d)]
    ∧ (placeOrderRun db d none).items = db.items ++ d.cart.map (mkItemRow db.nextOrderId) := by
  have hrows : ∀ (oid : ℕ) (ls : List CartLine) (k : ℕ) (c : Conn),
      insertItemRows oid (none : Option FailPoint) c k ls
        = some ⟨c.durable, { c.pending with items := c.pending.items ++ ls.map (mkItemRow oid) }⟩ :=
    fun oid => insertItemRows_total oid _ (by simp)
  by_cases hname : d.customer_name = ""
  · constructor
    · simp only [placeOrderRun, if_neg hc, upsert_phase]
      simp [hrows, hname, upsertDurable_orders, upsertDurable_nextOrderId]
    · simp only [placeOrderRun, if_neg hc, upsert_phase]
      simp [hrows, hname, upsertDurable_items, upsertDurable_nextOrderId]
  · by_cases hphone : d.customer_phone = ""
    · constructor
      · simp only [placeOrderRun, if_neg hc, upsert_phase]
        simp [hrows, hname, hphone, create_or_get_customer, upsertDurable_orders,
          upsertDurable_nextOrderId]
      · simp only [placeOrderRun, if_neg hc, upsert_phase]
        simp [hrows, hname, hphone, create_or_get_customer, upsertDurable_items,
          upsertDurable_nextOrderId]
    · obtain ⟨cid, hcid⟩ := upsert_phase_id db d hphone
      constructor
      · simp only [placeOrderRun, if_neg hc, upsert_phase]
        simp [hrows, hname, hphone, hcid, upsertDurable_orders, upsertDurable_nextOrderId]
      · simp only [placeOrderRun, if_neg hc, upsert_phase]
        simp [hrows, hname, hphone, hcid, upsertDurable_items, upsertDurable_nextOrderId]

theorem mem_orders_placeOrderRun (db : DB) (d : Draft) (o : Order) (ho : o ∈ db.orders) :
    o ∈ (placeOrderRun db d none).orders := by
  by_cases hc : d.cart = []
  · simp only [placeOrderRun, if_pos hc]
    exact ho
  · rw [(placeOrderRun_none_shapes db d hc).1]
    exact List.mem_append_left _ ho

theorem webhookMarkPaid_idem (db : DB) (n : ℤ) :
    webhookMarkPaid (webhookMarkPaid db n) n = webhookMarkPaid db n := by
  simp only [webhookMarkPaid, List.map_map]
  congr 1
  apply List.map_congr_left
  intro o _
  by_cases h : (o.id : ℤ) = n
  · simp [Function.comp, h]
  · simp [Function.comp, h]

theorem webhookMarkPaid_no_match (db : DB) (n : ℤ)
    (h : ∀ o ∈ db.orders, (o.id : ℤ) ≠ n) : webhookMarkPaid db n = db := by
  cases db with
  | mk cs os its n1 n2 =>
    simp only [webhookMarkPaid]
    congr 1
    have h2 : List.map (fun o =>
        if ((o.id : ℤ) = n) then { o with paid := true, payment_method := "Card" } else o) os
          = List.map id os :=
      List.map_congr_left (fun o ho => by simp [h o ho])
    rw [h2, List.map_id]

theorem dbAfterCash_orders :
    dbAfterCash.orders = [mkOrderRow 1 draftCash (draftTotals draftCash)] := by
  have h := (placeOrderRun_none_shapes dbEmpty draftCash (by simp [draftCash])).1
  simpa [dbAfterCash, dbEmpty] using h

/-- C1 counterexample: the reachable store dbAfterCash holds order 1 already
paid=true with payment_method Cash (marked paid at the desk); delivering an
authenticated payment_intent.succeeded webhook event for it changes the
store — the UPDATE also overwrites payment_method to Card — so the store
state is not left unchanged for every already-paid order. -/
theorem webhook_set_paid_changes_already_paid_cash_order :
    dbAfterCash.orders.map Order.paid = [true]
    ∧ dbAfterCash.orders.map Order.payment_method = ["Cash"]
    ∧ (stripe_webhook true (.event ⟨"payment_intent.succeeded", some "1"⟩) dbAfterCash).2.orders.map
        Order.payment_method = ["Card"]
    ∧ (stripe_webhook true (.event ⟨"payment_intent.succeeded", some "1"⟩) dbAfterCash).2
        ≠ dbAfterCash := by
  have hwh : stripe_webhook true (.event ⟨"payment_intent.succeeded", some "1"⟩) dbAfterCash
      = (.s200, webhookMarkPaid dbAfterCash 1) := rfl
  have h1 : dbAfterCash.orders.map Order.paid = [true] := by
    rw [dbAfterCash_orders]
    simp [mkOrderRow, draftCash]
  have h2 : dbAfterCash.orders.map Order.payment_method = ["Cash"] := by
    rw [dbAfterCash_orders]
    simp [mkOrderRow, draftCash]
  have h3 : (stripe_webhook true (.event ⟨"payment_intent.succeeded", some "1"⟩)
      dbAfterCash).2.orders.map Order.payment_method = ["Card"] := by
    rw [hwh]
    simp only [webhookMarkPaid]
    rw [dbAfterCash_orders]
    simp [mkOrderRow, draftCash]
  refine ⟨h1, h2, h3, ?_⟩
  intro heq
  rw [heq] at h3
  rw [h2] at h3
  simp at h3

/-- C1 as amended: the webhook paid-update is idempotent (twice equals once)
and never touches the customers or order_items tables, hence never
re-credits the Customer aggregate; a store in which every order of that id is
already paid with payment_method Card (in particular one the webhook already
processed) is left completely unchanged.  An order paid by another method
keeps paid=true but has its payment_method overwritten to Card. -/
theorem set_paid_idempotent_aggregates_untouched :
    ∀ (db : DB) (n : ℤ),
      webhookMarkPaid (webhookMarkPaid db n) n = webhookMarkPaid db n
      ∧ (webhookMarkPaid db n).customers = db.customers
      ∧ (webhookMarkPaid db n).items = db.items
      ∧ ((∀ o ∈ db.orders, (o.id : ℤ) = n → o.paid = true ∧ o.payment_method = "Card") →
          webhookMarkPaid db n = db) := by
  intro db n
  refine ⟨webhookMarkPaid_idem db n, rfl, rfl, ?_⟩
  intro h
  cases db with
  | mk cs os its n1 n2 =>
    simp only [webhookMarkPaid]
    congr 1
    have h2 : List.map (fun o =>
        if ((o.id : ℤ) = n) then { o with paid := true, payment_method := "Card" } else o) os
          = List.map id os := by
      apply List.map_congr_left
      intro o ho
      by_cases hid : (o.id : ℤ) = n
      · obtain ⟨hp, hm⟩ := h o ho hid
        rw [if_pos hid, ← hp, ← hm]
        rfl
      · rw [if_neg hid]
        rfl
    rw [h2, List.map_id]

/-- Witness for the amended C1: the webhook update applied to a store whose
only order is already paid with payment_method Card leaves it unchanged. -/
theorem set_paid_idempotent_witness : webhookMarkPaid dbCard 1 = dbCard := by
  apply (set_paid_idempotent_aggregates_untouched dbCard 1).2.2.2
  intro o ho hid
  simp [dbCard] at ho
  subst ho
  exact ⟨rfl, rfl⟩

/-- C2 counterexample: on the reachable store dbAfterCash whose only order is
paid=true, the manager quick action Toggle Paid sets paid back to false —
paid is not monotonic across all operations of the system. -/
theorem toggle_paid_unsets_paid_flag :
    dbAfterCash.orders.map Order.paid = [true]
    ∧ (step dbAfterCash (Op.managerTogglePaid 1)).orders.map Order.paid = [false] := by
  constructor
  · rw [dbAfterCash_orders]
    simp [mkOrderRow, draftCash]
  · simp only [step, togglePaid]
    rw [dbAfterCash_orders]
    simp [mkOrderRow, draftCash]

/-- C2 as amended: every operation of the system except the manager Toggle
Paid quick action preserves a true paid flag: an order that is paid stays
paid (with its id) across order creation, the kitchen status updates, the
other manager quick actions and both reconciliation paths; Toggle Paid is
the one operation that inverts it. -/
theorem paid_monotonic_without_toggle :
    ∀ (db : DB) (op : Op),
      (∀ oid, op ≠ Op.managerTogglePaid oid) →
      ∀ o ∈ db.orders, o.paid = true →
        ∃ o2 ∈ (step db op).orders, o2.id = o.id ∧ o2.paid = true := by
  intro db op hop o ho hp
  cases op with
  | placeOrder d =>
    exact ⟨o, mem_orders_placeOrderRun db d o ho, rfl, hp⟩
  | kitchenStart oid =>
    simp only [step, setStatus]
    refine ⟨_, List.mem_map_of_mem _ ho, ?_, ?_⟩ <;>
      by_cases h : o.id = oid <;> simp [h, hp]
  | kitchenReady oid =>
    simp only [step, setStatus]
    refine ⟨_, List.mem_map_of_mem _ ho, ?_, ?_⟩ <;>
      by_cases h : o.id = oid <;> simp [h, hp]
  | kitchenComplete oid =>
    simp only [step, setStatus]
    refine ⟨_, List.mem_map_of_mem _ ho, ?_, ?_⟩ <;>
      by_cases h : o.id = oid <;> simp [h, hp]
  | managerTogglePaid oid =>
    exact absurd rfl (hop oid)
  | managerArchive oid =>
    simp only [step, setArchived]
    refine ⟨_, List.mem_map_of_mem _ ho, ?_, ?_⟩ <;>
      by_cases h : o.id = oid <;> simp [h, hp]
  | managerUnarchive oid =>
    simp only [step, setArchived]
    refine ⟨_, List.mem_map_of_mem _ ho, ?_, ?_⟩ <;>
      by_cases h : o.id = oid <;> simp [h, hp]
  | managerMarkCompleted oid =>
    simp only [step, setStatus]
    refine ⟨_, List.mem_map_of_mem _ ho, ?_, ?_⟩ <;>
      by_cases h : o.id = oid <;> simp [h, hp]
  | webhookPaid n =>
    simp only [step, webhookMarkPaid]
    refine ⟨_, List.mem_map_of_mem _ ho, ?_, ?_⟩ <;>
      by_cases h : (o.id : ℤ) = n <;> simp [h, hp]
  | returnUrl qp =>
    exact ⟨o, ho, rfl, hp⟩

/-- Witness for the amended C2: the webhook reconciliation path applied to a
store with a paid order keeps that order paid. -/
theorem paid_monotonic_without_toggle_witness :
    ∃ o2 ∈ (step dbCard (Op.webhookPaid 1)).orders, o2.id = orderCard.id ∧ o2.paid = true :=
  paid_monotonic_without_toggle dbCard (Op.webhookPaid 1)
    (fun _ h => Op.noConfusion h) orderCard (by simp [dbCard]) rfl

/-- C3 counterexample: placing draftAnn (new customer Ann/555, one cart line)
on an empty store with a write failure at the order INSERT leaves a partially
persisted state: the customer row is already durably committed (by the commit
inside create_or_get_customer) while no order row exists — neither all rows
nor none were committed, refuting all-or-nothing atomicity. -/
theorem create_order_partial_customer_commit :
    placeOrderRun dbEmpty draftAnn (some FailPoint.orderInsert)
      = ⟨[⟨1, "Ann", "555", 0, 0⟩], [], [], 2, 1⟩
    ∧ (placeOrderRun dbEmpty draftAnn (some FailPoint.orderInsert)).customers
        ≠ dbEmpty.customers
    ∧ (placeOrderRun dbEmpty draftAnn (some FailPoint.orderInsert)).orders = dbEmpty.orders := by
  have h : placeOrderRun dbEmpty draftAnn (some FailPoint.orderInsert)
      = ⟨[⟨1, "Ann", "555", 0, 0⟩], [], [], 2, 1⟩ := rfl
  refine ⟨h, ?_, ?_⟩
  · rw [h]
    simp [dbEmpty]
  · rw [h]
    rfl

/-- C3 as amended: the order row, its order_items rows and the customer
aggregate UPDATE are indeed committed together by the single final commit,
but the customer upsert is committed separately beforehand: on any write
failure between the upsert and the final commit the durable store is exactly
the post-upsert state — existing rows plus possibly one fresh customer row
with zero aggregates, and never any of the new order's rows.  (The source
also raises the raw storage exception; no StorageError wrapper exists.) -/
theorem create_order_commit_boundaries :
    ∀ (db : DB) (d : Draft) (fp : FailPoint),
      (d.cart ≠ [] → fp.triggers d = true →
        placeOrderRun db d (some fp) = upsertDurable db d
        ∧ (placeOrderRun db d (some fp)).orders = db.orders
        ∧ (placeOrderRun db d (some fp)).items = db.items
        ∧ ∀ cu ∈ (placeOrderRun db d (some fp)).customers,
            cu ∈ db.customers ∨ (cu.total_spent = 0 ∧ cu.orders_count = 0))
      ∧ (d.cart ≠ [] →
        (placeOrderRun db d none).orders
            = db.orders ++ [mkOrderRow db.nextOrderId d (draftTotals d)]
        ∧ (placeOrderRun db d none).items = db.items ++ d.cart.map (mkItemRow db.nextOrderId)) := by
  intro db d fp
  constructor
  · intro hc ht
    have h := placeOrderRun_fail_eq db d fp hc ht
    refine ⟨h, ?_, ?_, ?_⟩
    · rw [h, upsertDurable_orders]
    · rw [h, upsertDurable_items]
    · rw [h]
      exact upsertDurable_customers_mem db d
  · intro hc
    exact placeOrderRun_none_shapes db d hc

/-- Witness for the amended C3 at the concrete draft: a failure at the final
commit leaves exactly the post-upsert store, and the successful run appends
the order row. -/
theorem create_order_commit_boundaries_witness :
    placeOrderRun dbEmpty draftAnn (some FailPoint.finalCommit) = upsertDurable dbEmpty draftAnn
    ∧ (placeOrderRun dbEmpty draftAnn none).orders
        = dbEmpty.orders ++ [mkOrderRow dbEmpty.nextOrderId draftAnn (draftTotals draftAnn)] := by
  have h := create_order_commit_boundaries dbEmpty draftAnn FailPoint.finalCommit
  exact ⟨(h.1 (by simp [draftAnn]) rfl).1, (h.2 (by simp [draftAnn])).1⟩

/-- C4 counterexample: an inbound success return-URL for order 7 carrying a
session_id, processed against a store where order 7 is unpaid and the
gateway session would report paid, only renders the success banner: the
store is returned unchanged and order 7 remains unpaid, not set to paid as
the claim requires. -/
theorem return_url_success_does_not_mark_paid :
    (handle_return_url db7 qpSuccess7).1 = db7
    ∧ (handle_return_url db7 qpSuccess7).2 = Banner.paymentReceived "7"
    ∧ db7.orders.map Order.paid = [false]
    ∧ (handle_return_url db7 qpSuccess7).1.orders.map Order.paid ≠ [true] := by
  refine ⟨rfl, rfl, rfl, ?_⟩
  intro h
  rw [show (handle_return_url db7 qpSuccess7).1 = db7 from rfl] at h
  simp [db7, order7] at h

/-- C4 as amended: the return-URL handler surfaces banners only — it never
reads or writes the store on any request, and it cannot look up the session:
the success and cancel URLs built by checkout creation carry no session_id
parameter at all.  Reconciliation happens exclusively on the webhook path. -/
theorem return_url_mutates_nothing :
    ∀ (db : DB) (qp : List (String × String)) (oid : ℕ),
      (handle_return_url db qp).1 = db
      ∧ qpGet (success_query_params oid) "session_id" = none
      ∧ qpGet (cancel_query_params oid) "session_id" = none :=
  fun _ _ _ => ⟨rfl, rfl, rfl⟩

/-- C5 counterexample: an authenticated payment_intent.succeeded event whose
metadata order_id is the non-numeric string abc makes int(order_id) raise an
unhandled ValueError: the endpoint answers 500, not the 200 acknowledgment
the claim promises for every authenticated payload. -/
theorem webhook_crashes_on_non_numeric_order_id :
    stripe_webhook true (.event ⟨"payment_intent.succeeded", some "abc"⟩) db7
      = (.s500, db7)
    ∧ HttpStatus.s500 ≠ HttpStatus.s200 := by
  refine ⟨rfl, ?_⟩
  intro h
  cases h

/-- C5 as amended: with the webhook secret configured, the endpoint answers
400 exactly on payloads that fail verification (and rejects them with no
store change); an authenticated event with no order_id metadata, or of a
non-payment type, is acknowledged with 200 and changes nothing; a
payment-success event whose order_id parses as an integer is acknowledged
with 200 after the paid UPDATE, which is a no-op when no order matches; a
non-integer order_id raises (500, not 200), and an unset secret yields 500
for every request. -/
theorem webhook_status_and_state_behavior :
    ∀ (db : DB) (p : InboundPayload) (e : WebhookEvent) (s : String) (n : ℤ),
      ((stripe_webhook true p db).1 = .s400 ↔ p = .unverifiable)
      ∧ stripe_webhook true .unverifiable db = (.s400, db)
      ∧ (e.metadata_order_id = none → stripe_webhook true (.event e) db = (.s200, db))
      ∧ ((e.type = "checkout.session.completed" ∨ e.type = "payment_intent.succeeded") →
          e.metadata_order_id = some s → s ≠ "" → pyIntOfString s = some n →
          stripe_webhook true (.event e) db = (.s200, webhookMarkPaid db n))
      ∧ ((∀ o ∈ db.orders, (o.id : ℤ) ≠ n) → webhookMarkPaid db n = db)
      ∧ (e.type ≠ "checkout.session.completed" → e.type ≠ "payment_intent.succeeded" →
          stripe_webhook true (.event e) db = (.s200, db))
      ∧ stripe_webhook false p db = (.s500, db) := by
  intro db p e s n
  refine ⟨?_, rfl, ?_, ?_, webhookMarkPaid_no_match db n, ?_, rfl⟩
  · constructor
    · intro h
      cases p with
      | unverifiable => rfl
      | event e2 =>
        exfalso
        simp only [stripe_webhook] at h
        simp at h
        split at h
        · split at h
          · simp at h
          · split at h
            · simp at h
            · split at h
              · simp at h
              · simp at h
        · simp at h
    · intro h
      subst h
      rfl
  · intro hmeta
    simp [stripe_webhook, hmeta]
  · intro htype hmeta hs hn
    simp only [stripe_webhook, hmeta]
    simp [hs, hn]
    rcases htype with h | h <;> simp [h]
  · intro h1 h2
    simp [stripe_webhook, h1, h2]

/-- Witness for the amended C5: a numeric order_id event is acknowledged
with 200 after the UPDATE, and an unrelated event type is acknowledged with
200 leaving the store untouched. -/
theorem webhook_status_witness :
    stripe_webhook true (.event ⟨"payment_intent.succeeded", some "7"⟩) db7
        = (.s200, webhookMarkPaid db7 7)
    ∧ stripe_webhook true (.event ⟨"charge.refunded", none⟩) db7 = (.s200, db7) := by
  constructor
  · exact (webhook_status_and_state_behavior db7 (.event ⟨"payment_intent.succeeded", some "7"⟩)
      ⟨"payment_intent.succeeded", some "7"⟩ "7" 7).2.2.2.1 (Or.inr rfl) rfl (by decide) rfl
  · exact (webhook_status_and_state_behavior db7 (.event ⟨"charge.refunded", none⟩)
      ⟨"charge.refunded", none⟩ "" 0).2.2.1 rfl

/-- C6: checkout creation with the gateway unconfigured fails with
ConfigError; with the gateway configured and the order's total converting to
at most 0 minor units it fails with ValidationError — in both cases before
any gateway call (the outcome is an error, not a gatewayCall) and with the
store returned unchanged. -/
theorem create_checkout_config_and_validation_errors :
    ∀ (db : DB) (oid : ℕ) (o : Order),
      create_checkout_for_order false db oid = (.error .configError, db)
      ∧ (findOrder db oid = some o → roundHalfEvenInt (o.total * 100) ≤ 0 →
          create_checkout_for_order true db oid = (.error .validationError, db)) := by
  intro db oid o
  constructor
  · rfl
  · intro hf hle
    simp [create_checkout_for_order, STRIPE_ENABLED, hf, hle]

/-- Witness for C6: on a store whose order 9 has total 0.00, checkout
creation without an API key yields ConfigError and with an API key yields
ValidationError, the store unchanged in both cases. -/
theorem create_checkout_errors_witness :
    create_checkout_for_order false db9 9 = (.error .configError, db9)
    ∧ create_checkout_for_order true db9 9 = (.error .validationError, db9) := by
  have h := create_checkout_config_and_validation_errors db9 9 orderZeroTotal
  refine ⟨h.1, h.2 rfl ?_⟩
  rw [show orderZeroTotal.total = 0 from rfl]
  rw [show ((0:ℚ) * 100) = ((0:ℤ) : ℚ) by norm_num]
  rw [roundHalfEvenInt_intCast]

end Fireside
